import Mathlib

/-!
Verification of the permission scoring engine of the aws-sso-report
repository.  The definitions below are a shallow embedding of
`src/data_models.py`, `src/permission_scoring_config.py` and
`src/permission_analyzer_v2.py`: Python dictionaries become association
lists looked up in insertion order, compiled regular expressions become
abstract boolean matchers, Python `int` becomes `Int`, Python floats used
as weights become `Rat`, and Python exceptions become `Except` values.
-/

namespace AwsSso

/-- Python `int(x)` applied to a rational: truncation toward zero
(`q.num` and `q.den` are already in lowest terms with positive
denominator). -/
def pyInt (q : Rat) : Int := Int.tdiv q.num q.den

/-- Python dictionary lookup (`d[k]` / `k in d`): association-list lookup
in insertion order.  Python keys are unique, so first-match lookup agrees
with the dictionary. -/
def dget {α : Type} : List (String × α) → String → Option α
  | [], _ => none
  | (k, v) :: t, key => if k = key then some v else dget t key

/-- Python substring containment on lists of characters
(`needle in hay` for strings): `needle` occurs contiguously in `hay`. -/
def subMemL (needle hay : List Char) : Bool :=
  needle.isPrefixOf hay ||
    match hay with
    | [] => false
    | _ :: t => subMemL needle t

/-- Python substring containment `needle in hay` on strings. -/
def subMem (needle hay : String) : Bool := subMemL needle.data hay.data

/-- Python single-character containment `c in s`. -/
def charMem (c : Char) (s : String) : Bool := s.data.contains c

/-- Python `s.lower()` (ASCII case folding, which covers every string the
code lowers: service prefixes and `Effect` values). -/
def strLower (s : String) : String := ⟨s.data.map Char.toLower⟩

/-- Python `s.upper()` (ASCII case folding of the configured tier
names). -/
def strUpper (s : String) : String := ⟨s.data.map Char.toUpper⟩

/-- The characters before the first occurrence of `c`:
Python `s.split(c, 1)[0]`. -/
def takeBefore (c : Char) : List Char → List Char
  | [] => []
  | x :: t => if x = c then [] else x :: takeBefore c t

/-- Python `action.split(":", 1)[0]`. -/
def serviceOf (s : String) : String := ⟨takeBefore ':' s.data⟩

/-- The characters before the first occurrence of the separator. -/
def beforeSepL (sep : List Char) : List Char → List Char
  | [] => []
  | x :: t => if sep.isPrefixOf (x :: t) then [] else x :: beforeSepL sep t

/-- The characters after the first occurrence of the separator, if
any. -/
def afterSepL (sep : List Char) : List Char → Option (List Char)
  | [] => none
  | x :: t =>
    if sep.isPrefixOf (x :: t) then some (List.drop sep.length (x :: t))
    else afterSepL sep t

/-- Python `s.split(sep)[1]` for a separator that occurs in `s` (the code
only indexes after checking `sep in s`): the chunk between the first
occurrence of the separator and the following one (or the end). -/
def pySplitIdx1 (sep s : String) : String :=
  ⟨beforeSepL sep.data ((afterSepL sep.data s.data).getD [])⟩

/-! ## data_models.py -/

/-- `RiskLevel` enumeration from `data_models.py`. -/
inductive RiskLevel
  | MINIMAL
  | LOW
  | MEDIUM
  | HIGH
  | CRITICAL
deriving DecidableEq, Repr

/-- `AccessLevel` enumeration from `data_models.py`. -/
inductive AccessLevel
  | READ_ONLY
  | READ_WRITE
  | FULL_ADMIN
  | NO_ACCESS
  | UNKNOWN
deriving DecidableEq, Repr

/-- The `.value` attribute of each `AccessLevel` member. -/
def AccessLevel.value : AccessLevel → String
  | .READ_ONLY => "Read Only"
  | .READ_WRITE => "Read Write"
  | .FULL_ADMIN => "Admin"
  | .NO_ACCESS => "No access"
  | .UNKNOWN => "unknown"

/-- The `PermissionScores` dataclass from `data_models.py`. -/
structure PermissionScores where
  read_score : Int := 0
  write_score : Int := 0
  admin_score : Int := 0
  justification : String := ""
deriving DecidableEq, Repr

/-- `PermissionScores.get_risk_level` from `data_models.py`. -/
def PermissionScores.get_risk_level (s : PermissionScores) : RiskLevel :=
  if s.admin_score ≥ 8 then RiskLevel.CRITICAL
  else if s.admin_score ≥ 5 ∨ s.write_score ≥ 8 then RiskLevel.HIGH
  else if s.write_score ≥ 5 then RiskLevel.MEDIUM
  else if s.read_score ≥ 5 then RiskLevel.LOW
  else RiskLevel.MINIMAL

/-- The spec's own wording of the derived risk level ("admin≥8 → CRITICAL;
admin≥5 or write≥8 → HIGH; write≥5 → MEDIUM; read≥5 → LOW; else
MINIMAL"), stated as a function of (admin, write, read) to compare with
the implementation. -/
def specRiskLevel (admin write read : Int) : RiskLevel :=
  if admin ≥ 8 then RiskLevel.CRITICAL
  else if admin ≥ 5 ∨ write ≥ 8 then RiskLevel.HIGH
  else if write ≥ 5 then RiskLevel.MEDIUM
  else if read ≥ 5 then RiskLevel.LOW
  else RiskLevel.MINIMAL

/-- C1: the implementation's derived risk level is exactly the spec's
threshold function of (admin, write, read), and the threshold boundaries
are exact: admin=5 → HIGH, admin=4 with write=8 → HIGH, write=5 →
MEDIUM, write=4 with read=5 → LOW, all-zero → MINIMAL, with the values
just below each boundary (admin=7, admin=4, write=7, write=4, read=4)
falling in the lower class. -/
theorem C1_risk_level_thresholds :
    (∀ s : PermissionScores,
      s.get_risk_level = specRiskLevel s.admin_score s.write_score s.read_score)
    ∧ PermissionScores.get_risk_level ⟨0, 0, 5, ""⟩ = RiskLevel.HIGH
    ∧ PermissionScores.get_risk_level ⟨0, 8, 4, ""⟩ = RiskLevel.HIGH
    ∧ PermissionScores.get_risk_level ⟨0, 5, 0, ""⟩ = RiskLevel.MEDIUM
    ∧ PermissionScores.get_risk_level ⟨5, 4, 0, ""⟩ = RiskLevel.LOW
    ∧ PermissionScores.get_risk_level ⟨0, 0, 0, ""⟩ = RiskLevel.MINIMAL
    ∧ PermissionScores.get_risk_level ⟨0, 0, 8, ""⟩ = RiskLevel.CRITICAL
    ∧ PermissionScores.get_risk_level ⟨0, 0, 7, ""⟩ = RiskLevel.HIGH
    ∧ PermissionScores.get_risk_level ⟨0, 0, 4, ""⟩ = RiskLevel.MINIMAL
    ∧ PermissionScores.get_risk_level ⟨0, 7, 4, ""⟩ = RiskLevel.MEDIUM
    ∧ PermissionScores.get_risk_level ⟨0, 4, 0, ""⟩ = RiskLevel.MINIMAL
    ∧ PermissionScores.get_risk_level ⟨4, 4, 0, ""⟩ = RiskLevel.MINIMAL := by
  refine ⟨fun s => rfl, ?_, ?_, ?_, ?_, ?_, ?_, ?_, ?_, ?_, ?_, ?_⟩ <;> decide

/-! ## permission_scoring_config.py: the configuration model

The YAML configuration becomes a typed structure mirroring the keys the
code reads.  A compiled regular expression becomes an abstract matcher
`String → Bool` (the behaviour of `pattern.match(action)`). -/

/-- One value of the `special_actions` table (a dict with optional
`risk_level` and `description` keys). -/
structure SpecialActionConfig where
  risk_level : Option String := none
  description : Option String := none
deriving DecidableEq, Repr

/-- One value of a per-service `actions` table. -/
structure ActionEntry where
  risk_level : Option String := none
  description : Option String := none
deriving DecidableEq, Repr

/-- One per-service configuration: the exact `actions` table plus the four
legacy list-style buckets (a missing key reads as the empty list, matching
`service_config.get(..., [])`). -/
structure ServiceConfig where
  actions : List (String × ActionEntry) := []
  critical_actions : List String := []
  high_risk_actions : List String := []
  medium_risk_actions : List String := []
  read_only_actions : List String := []
deriving DecidableEq, Repr

/-- A value of the `managed_policies` dict: either an explicit per-policy
entry (a dict of optional scores) or a legacy tier bucket (a list of
policy names). -/
inductive ManagedPolicyValue
  | entry (read_score write_score admin_score : Option Int)
  | legacy (policies : List String)
deriving DecidableEq, Repr

/-- The `scoring_rules.defaults` dict; the code indexes the three keys
directly (`defaults["read_score"]` …). -/
structure ScoreDefaults where
  read_score : Int
  write_score : Int
  admin_score : Int
deriving DecidableEq, Repr

/-- The `scoring_rules` dict. -/
structure ScoringRules where
  risk_levels : List (String × Int)
  defaults : ScoreDefaults

/-- The `weights` dict; the code indexes `service_specific` and
`pattern_based` directly.  Python floats are modelled as rationals. -/
structure ScoreWeights where
  service_specific : Rat
  pattern_based : Rat
  managed_policy : Rat

/-- A compiled regular expression, abstracted to its `.match` behaviour. -/
def Matcher : Type := String → Bool

/-- The whole loaded configuration (the dict returned by `_load_config`,
together with the `_pattern_cache` built by `_compile_patterns`, which
maps each tier key of `patterns` to its compiled matchers in order). -/
structure Config where
  scoring_rules : ScoringRules
  services : List (String × ServiceConfig) := []
  managed_policies : List (String × ManagedPolicyValue) := []
  patterns : List (String × List Matcher) := []
  special_actions : List (String × SpecialActionConfig) := []
  weights : ScoreWeights

/-- `risk_levels.get(name, d)`. -/
def rlGet (cfg : Config) (name : String) (d : Int) : Int :=
  (dget cfg.scoring_rules.risk_levels name).getD d

/-- `_get_default_config` from `permission_scoring_config.py`. -/
def default_config : Config where
  scoring_rules :=
    { risk_levels :=
        [("minimal", 1), ("low", 3), ("medium", 5), ("high", 8), ("critical", 10)]
      defaults := { read_score := 2, write_score := 5, admin_score := 0 } }
  services := []
  managed_policies :=
    [("critical", .legacy []), ("high", .legacy []),
     ("medium", .legacy []), ("low", .legacy [])]
  patterns := [("critical", []), ("high", []), ("medium", []), ("low", [])]
  special_actions := []
  weights := { service_specific := 1, pattern_based := 7/10, managed_policy := 6/5 }

/-- Errors raised when reading the configuration file: Python's
`FileNotFoundError` versus any other `OSError` the code does not catch. -/
inductive FileErr
  | fileNotFound
  | otherErr (msg : String)
deriving DecidableEq, Repr

/-- `_load_config` from `permission_scoring_config.py`: the file system
and the YAML parser are abstract collaborators; `FileNotFoundError` and
`yaml.YAMLError` are caught and replaced by the default configuration,
anything else propagates. -/
def load_config (readFile : String → Except FileErr String)
    (parseYaml : String → Except Unit Config) (path : String) :
    Except FileErr Config :=
  match readFile path with
  | .error .fileNotFound => .ok default_config
  | .error e => .error e
  | .ok content =>
    match parseYaml content with
    | .error _ => .ok default_config
    | .ok cfg => .ok cfg

/-! ## permission_scoring_config.py: scoring one action -/

/-- Result tuple of `score_action`:
(read_score, write_score, admin_score, risk_level, justification). -/
structure ScoredAction where
  read : Int
  write : Int
  admin : Int
  risk : String
  justification : String
deriving DecidableEq, Repr

/-- `_score_special_action`. -/
def score_special_action (cfg : Config) (action : String)
    (ac : SpecialActionConfig) : ScoredAction :=
  let risk_name := ac.risk_level.getD "critical"
  let description := ac.description.getD ("Special action " ++ action)
  let base_score := rlGet cfg risk_name 10
  let justification :=
    if action = "*" then
      "Full administrative access: Complete control over all AWS services and resources"
    else if action = "*:*" then
      "Wildcard access: Unrestricted permissions across all AWS services"
    else
      "Special permission: " ++ description
  ⟨base_score, base_score, base_score, risk_name, justification⟩

/-- `_score_by_pattern`.  The loop returns at the first matching pattern
of the first tier (in the fixed order critical, high, medium, low) that
has a match; since the result depends only on the tier, a per-tier `any`
is extensionally the same loop. -/
def score_by_pattern (cfg : Config) (action : String) : ScoredAction :=
  let weight := cfg.weights.pattern_based
  let tierMatch := fun (tier : String) =>
    ((dget cfg.patterns tier).getD []).any (fun p => p action)
  let result := fun (tier : String) (suffix : String)
      (shape : Int → Int × Int × Int) =>
    let base_score := rlGet cfg tier 5
    let weighted_score := pyInt ((base_score : Rat) * weight)
    let justification :=
      "Pattern-based scoring: Action \x27" ++ action ++ "\x27 matches " ++
      strUpper tier ++ " risk pattern. Score: " ++ toString base_score ++
      " (weighted: " ++ toString weighted_score ++ ")" ++ suffix
    let (r, w, a) := shape weighted_score
    ScoredAction.mk r w a tier justification
  if tierMatch "critical" then
    result "critical"
      ". CRITICAL: Pattern indicates high-risk administrative action."
      (fun w => (w, w, w))
  else if tierMatch "high" then
    result "high"
      ". HIGH: Pattern indicates significant write/modify permissions."
      (fun w => (w, w, Int.fdiv w 2))
  else if tierMatch "medium" then
    result "medium"
      ". MEDIUM: Pattern indicates standard write operations."
      (fun w => (Int.fdiv w 2, w, 0))
  else if tierMatch "low" then
    result "low"
      ". LOW: Pattern indicates read-only operations."
      (fun w => (w, 0, 0))
  else
    ⟨cfg.scoring_rules.defaults.read_score,
     cfg.scoring_rules.defaults.write_score,
     cfg.scoring_rules.defaults.admin_score,
     "unknown",
     "Unknown action: \x27" ++ action ++ "\x27 - using default risk assessment"⟩

/-- The legacy part of `_score_service_action`: the four old-style
list-style buckets are checked in their literal order; if none contains
the action, the code falls through to `_score_by_pattern`.  The risk name
of each bucket is the one the string surgery
`risk_level.replace("_actions", "").replace("_risk", "")` produces (with
`read_only` renamed to `low`). -/
def svcLegacy (cfg : Config) (full_action : String) (sc : ServiceConfig) :
    ScoredAction :=
  let weight := cfg.weights.service_specific
  let result := fun (list_name risk_name suffix : String)
      (shape : Int → Int × Int × Int) =>
    let base_score := rlGet cfg risk_name 5
    let weighted_score := pyInt ((base_score : Rat) * weight)
    let justification :=
      "Legacy service configuration: Action found in " ++ list_name ++
      " list. Risk level: " ++ strUpper risk_name ++ " (score: " ++
      toString base_score ++ ")" ++ suffix
    let (r, w, a) := shape weighted_score
    ScoredAction.mk r w a risk_name justification
  if full_action ∈ sc.critical_actions then
    result "critical_actions" "critical"
      ". CRITICAL: High-risk action requiring immediate attention."
      (fun w => (w, w, w))
  else if full_action ∈ sc.high_risk_actions then
    result "high_risk_actions" "high"
      ". HIGH: Significant security implications."
      (fun w => (w, w, Int.fdiv w 2))
  else if full_action ∈ sc.medium_risk_actions then
    result "medium_risk_actions" "medium"
      ". MEDIUM: Moderate security risk."
      (fun w => (Int.fdiv w 2, w, 0))
  else if full_action ∈ sc.read_only_actions then
    result "read_only_actions" "low"
      ". LOW: Limited security impact."
      (fun w => (w, 0, 0))
  else
    score_by_pattern cfg full_action

/-- `_score_service_action`: the exact `actions` table is consulted
first; a hit with one of the four known tiers returns the tier-shaped
scores, a hit with any other tier falls out of the `if/elif` chain and
continues with the legacy buckets, a miss goes to the legacy buckets
directly. -/
def score_service_action (cfg : Config) (_service full_action : String)
    (sc : ServiceConfig) : ScoredAction :=
  match dget sc.actions full_action with
  | some ac =>
    let risk_name := ac.risk_level.getD "medium"
    let description := ac.description.getD ("Action " ++ full_action)
    let base_score := rlGet cfg risk_name 5
    let weighted_score := pyInt ((base_score : Rat) * cfg.weights.service_specific)
    let justification := description ++ " (Risk: " ++ strUpper risk_name ++ ")"
    if risk_name = "critical" then
      ⟨weighted_score, weighted_score, weighted_score, risk_name, justification⟩
    else if risk_name = "high" then
      ⟨weighted_score, weighted_score, Int.fdiv weighted_score 2, risk_name,
       justification⟩
    else if risk_name = "medium" then
      ⟨Int.fdiv weighted_score 2, weighted_score, 0, risk_name, justification⟩
    else if risk_name = "low" then
      ⟨weighted_score, 0, 0, risk_name,
       justification ++ ". LOW: Read-only access - minimal security risk."⟩
    else
      svcLegacy cfg full_action sc
  | none => svcLegacy cfg full_action sc

/-- `score_action`: special sentinels first, then the exact-table /
legacy-list service branch, then the pattern fallback.  The unused second
component of `action.split(":", 1)` is not materialised; only the
lower-cased service part is. -/
def score_action (cfg : Config) (action : String) : ScoredAction :=
  match dget cfg.special_actions action with
  | some ac => score_special_action cfg action ac
  | none =>
    if ¬ charMem ':' action then score_by_pattern cfg action
    else
      let service := strLower (serviceOf action)
      match dget cfg.services service with
      | some sc => score_service_action cfg service action sc
      | none => score_by_pattern cfg action

/-! ## permission_scoring_config.py: scoring a managed policy -/

/-- Python exceptions that can cross function boundaries in the
analyzer: the SSO client's `ResourceNotFoundException` versus anything
else (`AttributeError`, `TypeError`, …). -/
inductive PyErr
  | resourceNotFound
  | otherErr (msg : String)
deriving DecidableEq, Repr

/-- The per-bucket hit test of the legacy loop of
`score_managed_policy`: `isinstance(policies, list) and any(policy in
policy_name for policy in policies)` — true when the value is a legacy
list one of whose names is a substring of the queried policy name. -/
def legacyHit (policy_name : String) : ManagedPolicyValue → Bool
  | .legacy policies => policies.any (fun policy => subMem policy policy_name)
  | .entry _ _ _ => false

/-- The legacy loop of `score_managed_policy`: iterate the
`managed_policies` dict in order; a hit under one of the four known tier
keys returns the tier-shaped triple, a hit under any other key falls out
of the `if/elif` chain and the loop continues. -/
def mpLegacyLoop (cfg : Config) (policy_name : String) :
    List (String × ManagedPolicyValue) → Option (Int × Int × Int)
  | [] => none
  | (risk_level, v) :: t =>
    if legacyHit policy_name v then
      let score := rlGet cfg risk_level 5
      if risk_level = "critical" then some (score, score, score)
      else if risk_level = "high" then some (score, score, Int.fdiv score 2)
      else if risk_level = "medium" then some (score, score, 0)
      else if risk_level = "low" then some (score, 0, 0)
      else mpLegacyLoop cfg policy_name t
    else mpLegacyLoop cfg policy_name t

/-- `score_managed_policy`.  An exact key hit whose value is an explicit
entry returns its scores with the documented defaults; an exact key hit
whose value is a legacy list makes the Python code call `.get` on a list
and raise `AttributeError`, modelled as an error; otherwise the legacy
substring loop runs and, failing that, the configured defaults are
returned. -/
def score_managed_policy (cfg : Config) (policy_name : String) :
    Except PyErr (Int × Int × Int) :=
  match dget cfg.managed_policies policy_name with
  | some (.entry r w a) => .ok (r.getD 2, w.getD 5, a.getD 0)
  | some (.legacy _) => .error (.otherErr "AttributeError")
  | none =>
    match mpLegacyLoop cfg policy_name cfg.managed_policies with
    | some triple => .ok triple
    | none =>
      .ok (cfg.scoring_rules.defaults.read_score,
           cfg.scoring_rules.defaults.write_score,
           cfg.scoring_rules.defaults.admin_score)

/-! ## permission_scoring_config.py: analyze_actions -/

/-- The loop state of `analyze_actions`: the running scores, the
collected high-risk actions, the two flags and the per-action
justification fragments (all appended in loop order). -/
structure AnalyzeState where
  scores : PermissionScores := {}
  high_risk_actions : List String := []
  has_admin : Bool := false
  has_write : Bool := false
  justifications : List String := []
deriving Repr

/-- One iteration of the `for action in actions` loop of
`analyze_actions`. -/
def analyzeStep (cfg : Config) (st : AnalyzeState) (action : String) :
    AnalyzeState :=
  let sa := score_action cfg action
  { scores :=
      { read_score := max st.scores.read_score sa.read
        write_score := max st.scores.write_score sa.write
        admin_score := max st.scores.admin_score sa.admin
        justification := st.scores.justification }
    high_risk_actions :=
      if sa.risk = "critical" ∨ sa.risk = "high" then
        st.high_risk_actions ++ [action]
      else st.high_risk_actions
    has_admin := if sa.admin > 0 then true else st.has_admin
    has_write := if sa.write > 0 then true else st.has_write
    justifications := st.justifications ++ [action ++ ": " ++ sa.justification] }

/-- `analyze_actions`. -/
def analyze_actions (cfg : Config) (actions : List String) :
    AccessLevel × PermissionScores × List String :=
  let st := actions.foldl (analyzeStep cfg) {}
  let access_level :=
    if st.has_admin = true ∨ st.scores.admin_score ≥ 5 then
      AccessLevel.FULL_ADMIN
    else if st.has_write = true ∨ st.scores.write_score ≥ 5 then
      AccessLevel.READ_WRITE
    else if st.scores.read_score > 0 then AccessLevel.READ_ONLY
    else AccessLevel.UNKNOWN
  let justification :=
    "Analysis of " ++ toString actions.length ++ " actions. Access level: " ++
    access_level.value ++ ". " ++
    "High-risk actions: " ++ toString st.high_risk_actions.length ++ ". " ++
    "Detailed breakdown: " ++
    String.intercalate "; " (st.justifications.take 5)
  let justification :=
    if st.justifications.length > 5 then
      justification ++ " ... and " ++ toString (st.justifications.length - 5) ++
        " more actions."
    else justification
  (access_level, { st.scores with justification := justification },
   st.high_risk_actions)

/-! ## permission_analyzer_v2.py -/

/-- Parsed JSON values, as `json.loads` produces them. -/
inductive Json
  | null
  | bool (b : Bool)
  | num (n : Int)
  | str (s : String)
  | arr (elems : List Json)
  | obj (fields : List (String × Json))

/-- Processing of one element of the statement list inside
`_extract_actions_from_policy`: non-dict statements are skipped, a
non-"allow" effect skips the statement, a string `Action` is wrapped in a
list, a list `Action` is extended in (Python defers the failure on a
non-string element to the later scoring loop, which raises on it inside
the same enclosing `try`; the model raises at extraction), extending with
a dict iterates its keys, anything else is not iterable and raises. -/
def extractFromStatement : Json → Except PyErr (List String)
  | .obj fields =>
    match (dget fields "Effect").getD (.str "") with
    | .str e =>
      if strLower e ≠ "allow" then .ok []
      else
        match (dget fields "Action").getD (.arr []) with
        | .str s => .ok [s]
        | .arr elems =>
          elems.foldrM
            (fun j acc =>
              match j with
              | .str s => .ok (s :: acc)
              | _ => .error (.otherErr "TypeError"))
            []
        | .obj o => .ok (o.map (fun kv => kv.1))
        | _ => .error (.otherErr "TypeError")
    | _ => .error (.otherErr "AttributeError")
  | _ => .ok []

/-- `_extract_actions_from_policy`: a JSON parse failure is caught (the
`except (json.JSONDecodeError, KeyError)` clause) and yields the empty
list; a document that is not a dict makes `.get` raise; a `Statement`
value that is a dict is wrapped in a singleton list, a string iterates to
characters none of which is a dict, and a non-iterable value raises. -/
def extract_actions (parseJson : String → Except Unit Json)
    (policy_json : String) : Except PyErr (List String) :=
  match parseJson policy_json with
  | .error _ => .ok []
  | .ok doc =>
    match doc with
    | .obj fields =>
      let stmtList : Except PyErr (List Json) :=
        match (dget fields "Statement").getD (.arr []) with
        | .obj o => .ok [.obj o]
        | .arr l => .ok l
        | .str _ => .ok []
        | _ => .error (.otherErr "TypeError")
      stmtList.bind fun l =>
        l.foldlM (fun acc st => (extractFromStatement st).map (acc ++ ·)) []
    | _ => .error (.otherErr "AttributeError")

/-- One record of `AttachedManagedPolicies`; only the `Name` key is
consulted by the analyzer. -/
structure AttachedPolicy where
  Name : String
  Arn : String := ""
deriving DecidableEq, Repr

/-- The `for policy in managed_policies` loop of `_analyze_policies_v2`:
maximum-wise score accumulation plus one justification fragment for every
policy with a nonzero score. -/
def managedLoop (cfg : Config) :
    List AttachedPolicy → PermissionScores × List String →
    Except PyErr (PermissionScores × List String)
  | [], acc => .ok acc
  | p :: t, (scores, parts) =>
    (score_managed_policy cfg p.Name).bind fun (r, w, a) =>
      let scores :=
        { scores with
          read_score := max scores.read_score r
          write_score := max scores.write_score w
          admin_score := max scores.admin_score a }
      let parts :=
        if r > 0 ∨ w > 0 ∨ a > 0 then
          parts ++ ["Managed policy \x27" ++ p.Name ++ "\x27: read=" ++
            toString r ++ ", write=" ++ toString w ++ ", admin=" ++ toString a]
        else parts
      managedLoop cfg t (scores, parts)

/-- The justification synthesis at the end of `_analyze_policies_v2`
(the cascading `if/elif` over the collected fragments). -/
def synthesizeJustification (parts : List String)
    (final_scores : PermissionScores) (access_level : AccessLevel) : String :=
  if parts ≠ [] then
    if parts.any (fun part => subMem "AdministratorAccess" part) then
      let j := "Full administrative access via AdministratorAccess managed policy"
      if parts.any (fun part => subMem "Inline policy" part) then
        j ++ " plus additional inline permissions"
      else j
    else if parts.any (fun part => subMem "ReadOnlyAccess" part) then
      let has_additional_permissions :=
        final_scores.write_score > 0 ∨ final_scores.admin_score > 0
      if has_additional_permissions then
        let additional_sources := parts.filterMap (fun part =>
          if ¬ subMem "ReadOnlyAccess" part then
            if subMem "Managed policy" part then
              let policy_name :=
                if subMem "\x27" part then pySplitIdx1 "\x27" part
                else "managed policy"
              some ("\x27" ++ policy_name ++ "\x27 managed policy")
            else if subMem "Inline policy" part then some "inline policy"
            else none
          else none)
        if additional_sources ≠ [] then
          "Read-only access via ReadOnlyAccess managed policy, " ++
          "plus write/admin permissions from " ++
          String.intercalate ", " additional_sources
        else
          "Read-only access via ReadOnlyAccess managed policy, " ++
          "plus additional write/admin permissions"
      else
        "Read-only access via ReadOnlyAccess managed policy"
    else if parts.length = 1 ∧ subMem "Single managed policy" (parts.headD "") then
      let policy_name :=
        if subMem ": " (parts.headD "") then pySplitIdx1 ": " (parts.headD "")
        else "managed policy"
      "Permissions granted via " ++ policy_name ++ " managed policy"
    else
      let managed_parts := parts.filter (fun p => subMem "Managed policy" p)
      let inline_parts := parts.filter (fun p => subMem "Inline policy" p)
      if managed_parts ≠ [] ∧ inline_parts ≠ [] then
        "Combined permissions from " ++ toString managed_parts.length ++
        " managed policy(ies) and custom inline policy"
      else if managed_parts ≠ [] then
        "Permissions from " ++ toString managed_parts.length ++
        " managed policy(ies)"
      else if inline_parts ≠ [] then
        "Custom permissions via inline policy"
      else "Mixed permission sources"
  else
    "Access level: " ++ access_level.value ++ " - No detailed analysis available"

/-- `_analyze_policies_v2`. -/
def analyze_policies_v2 (cfg : Config) (parseJson : String → Except Unit Json)
    (managed_policies : List AttachedPolicy) (inline_policy : Option String) :
    Except PyErr (AccessLevel × PermissionScores) :=
  (managedLoop cfg managed_policies ({}, [])).bind fun (ms, mparts) =>
  -- `if inline_policy:` — None and the empty string are both falsy
  (match inline_policy with
   | some s => if s ≠ "" then extract_actions parseJson s else .ok []
   | none => .ok []).bind fun inline_actions =>
  let all_actions := inline_actions
  let analyzed :=
    if inline_actions ≠ [] then some (analyze_actions cfg inline_actions)
    else none
  let final_scores :=
    match analyzed with
    | some (_, iscores, _) =>
      { ms with
        read_score := max ms.read_score iscores.read_score
        write_score := max ms.write_score iscores.write_score
        admin_score := max ms.admin_score iscores.admin_score }
    | none => ms
  let parts :=
    match analyzed with
    | some (_, iscores, _) =>
      if iscores.justification ≠ "" then
        mparts ++ ["Inline policy analysis: " ++ iscores.justification]
      else mparts
    | none => mparts
  -- the running access-level candidate of lines 96 and 152–159 (kept for
  -- fidelity; the scores-based derivation below overwrites it
  -- unconditionally)
  let _access_level_candidate :=
    match analyzed with
    | some (lvl, _, _) =>
      if lvl.value = "Admin" then AccessLevel.FULL_ADMIN
      else if lvl.value = "Read Write" then AccessLevel.READ_WRITE
      else AccessLevel.READ_ONLY
    | none => AccessLevel.READ_ONLY
  let parts :=
    if all_actions = [] ∧ managed_policies ≠ [] then
      let policy_names := managed_policies.map (fun (p : AttachedPolicy) => p.Name)
      if policy_names.length = 1 then
        parts ++ ["Single managed policy: " ++ policy_names.headD ""]
      else
        let parts := parts ++ ["Multiple managed policies: " ++
          String.intercalate ", " (policy_names.take 3)]
        if policy_names.length > 3 then
          parts ++ ["... and " ++ toString (policy_names.length - 3) ++ " more"]
        else parts
    else parts
  let access_level :=
    if final_scores.admin_score ≥ 5 then AccessLevel.FULL_ADMIN
    else if final_scores.write_score ≥ 5 then AccessLevel.READ_WRITE
    else if final_scores.read_score > 0 then AccessLevel.READ_ONLY
    else AccessLevel.UNKNOWN
  let justification := synthesizeJustification parts final_scores access_level
  .ok (access_level, { final_scores with justification := justification })

/-- The external AWS collaborators of `PermissionAnalyzerV2`, indexed by
permission-set ARN: the raw paginated managed-policy listing and the raw
inline-policy fetch, each of which may raise. -/
structure AwsEnv where
  managedPoliciesRaw : String → Except PyErr (List AttachedPolicy)
  inlinePolicyRaw : String → Except PyErr (Option String)

/-- `_get_managed_policies`: any exception from the pagination is caught
and turned into the empty list. -/
def get_managed_policies (env : AwsEnv) (arn : String) : List AttachedPolicy :=
  match env.managedPoliciesRaw arn with
  | .ok l => l
  | .error _ => []

/-- `_get_inline_policy`: only `ResourceNotFoundException` is caught
(yielding no inline policy); any other exception propagates. -/
def get_inline_policy (env : AwsEnv) (arn : String) :
    Except PyErr (Option String) :=
  match env.inlinePolicyRaw arn with
  | .error .resourceNotFound => .ok none
  | .error e => .error e
  | .ok v => .ok v

/-- The body of the `try` block of `analyze_permission_set` (steps 1–6 of
the analysis). -/
def analysis_result (cfg : Config) (parseJson : String → Except Unit Json)
    (env : AwsEnv) (arn : String) :
    Except PyErr (AccessLevel × PermissionScores) :=
  let managed := get_managed_policies env arn
  (get_inline_policy env arn).bind fun inline =>
    analyze_policies_v2 cfg parseJson managed inline

/-- `analyze_permission_set`: memoisation-cache hit short-circuits; a
successful analysis is cached and returned; any exception inside the
`try` yields `(UNKNOWN, PermissionScores())` without caching and without
propagating. -/
def analyze_permission_set (cfg : Config)
    (parseJson : String → Except Unit Json) (env : AwsEnv)
    (cache : List (String × (AccessLevel × PermissionScores)))
    (arn : String) :
    (AccessLevel × PermissionScores) ×
      List (String × (AccessLevel × PermissionScores)) :=
  match dget cache arn with
  | some r => (r, cache)
  | none =>
    match analysis_result cfg parseJson env arn with
    | .ok r => (r, cache ++ [(arn, r)])
    | .error _ => ((AccessLevel.UNKNOWN, {}), cache)

/-- Modelled from the spec: the repository's configuration file
`config/permission_scoring_minimal.yaml` is not among the sources, so its
content is reconstructed from the spec — the severity scale low=3,
medium=5, high=8, critical=10 (§3, plus minimal=1 from the built-in
default), the default triple (read=2, write=5, admin=0) (§4.1), the
sentinel keys `"*"` and `"*:*"` of the `specialActions` table mapped to
the critical tier (§3), a managed-policy table whose entry for
`AdministratorAccess` carries the explicit triple (10, 10, 10)
(§4.2 and end-to-end scenario 1), and the provenance weights
service-specific=1.0, pattern-based=0.7, managed-policy=1.2 (§4.1 default
and §3). -/
def yaml_config : Config where
  scoring_rules :=
    { risk_levels :=
        [("minimal", 1), ("low", 3), ("medium", 5), ("high", 8), ("critical", 10)]
      defaults := { read_score := 2, write_score := 5, admin_score := 0 } }
  services := []
  managed_policies :=
    [("AdministratorAccess", .entry (some 10) (some 10) (some 10))]
  patterns := []
  special_actions :=
    [("*", { risk_level := some "critical" }),
     ("*:*", { risk_level := some "critical" })]
  weights := { service_specific := 1, pattern_based := 7/10, managed_policy := 6/5 }

/-! ## Characterisation of the analyze_actions loop -/

/-- Folding a running maximum of `f` over a list, as the score
accumulation of `analyze_actions` does per field. -/
def maxFold (f : String → Int) (x : Int) (l : List String) : Int :=
  l.foldl (fun m a => max m (f a)) x

theorem maxFold_nil (f : String → Int) (x : Int) : maxFold f x [] = x := rfl

theorem maxFold_cons (f : String → Int) (x : Int) (a : String) (l : List String) :
    maxFold f x (a :: l) = maxFold f (max x (f a)) l := rfl

theorem le_maxFold (f : String → Int) (l : List String) :
    ∀ x : Int, x ≤ maxFold f x l := by
  induction l with
  | nil => intro x; exact le_refl x
  | cons a t ih =>
    intro x
    exact le_trans (le_max_left x (f a)) (ih (max x (f a)))

theorem maxFold_mono (f : String → Int) (l : List String) :
    ∀ {x y : Int}, x ≤ y → maxFold f x l ≤ maxFold f y l := by
  induction l with
  | nil => intro x y h; exact h
  | cons a t ih =>
    intro x y h
    exact ih (max_le_max h (le_refl (f a)))

theorem mem_le_maxFold (f : String → Int) {a : String} {l : List String}
    (h : a ∈ l) (x : Int) : f a ≤ maxFold f x l := by
  induction l generalizing x with
  | nil => cases h
  | cons b t ih =>
    rcases List.mem_cons.mp h with h1 | h1
    · subst h1
      exact le_trans (le_max_right x (f a)) (le_maxFold f t (max x (f a)))
    · exact ih h1 (max x (f b))

theorem maxFold_le (f : String → Int) {l : List String} {c : Int}
    (h : ∀ a ∈ l, f a ≤ c) : ∀ {x : Int}, x ≤ c → maxFold f x l ≤ c := by
  induction l with
  | nil => intro x hx; exact hx
  | cons a t ih =>
    intro x hx
    exact ih (fun b hb => h b (List.mem_cons_of_mem a hb))
      (max_le hx (h a (List.mem_cons_self a t)))

theorem maxFold_append (f : String → Int) (x : Int) (l₁ l₂ : List String) :
    maxFold f x (l₁ ++ l₂) = maxFold f (maxFold f x l₁) l₂ :=
  List.foldl_append _ x l₁ l₂

theorem loop_read (cfg : Config) (l : List String) :
    ∀ s : AnalyzeState,
      (l.foldl (analyzeStep cfg) s).scores.read_score =
        maxFold (fun a => (score_action cfg a).read) s.scores.read_score l := by
  induction l with
  | nil => intro s; rfl
  | cons a t ih =>
    intro s
    rw [List.foldl_cons, ih, maxFold_cons]
    rfl

theorem loop_write (cfg : Config) (l : List String) :
    ∀ s : AnalyzeState,
      (l.foldl (analyzeStep cfg) s).scores.write_score =
        maxFold (fun a => (score_action cfg a).write) s.scores.write_score l := by
  induction l with
  | nil => intro s; rfl
  | cons a t ih =>
    intro s
    rw [List.foldl_cons, ih, maxFold_cons]
    rfl

theorem loop_admin (cfg : Config) (l : List String) :
    ∀ s : AnalyzeState,
      (l.foldl (analyzeStep cfg) s).scores.admin_score =
        maxFold (fun a => (score_action cfg a).admin) s.scores.admin_score l := by
  induction l with
  | nil => intro s; rfl
  | cons a t ih =>
    intro s
    rw [List.foldl_cons, ih, maxFold_cons]
    rfl

theorem loop_has_admin (cfg : Config) (l : List String) :
    ∀ s : AnalyzeState,
      (l.foldl (analyzeStep cfg) s).has_admin =
        (s.has_admin || l.any (fun a => decide ((score_action cfg a).admin > 0))) := by
  induction l with
  | nil => intro s; simp
  | cons a t ih =>
    intro s
    rw [List.foldl_cons, ih]
    show ((analyzeStep cfg s a).has_admin || _) = _
    by_cases h : (score_action cfg a).admin > 0
    · simp [analyzeStep, h]
    · simp [analyzeStep, h]

theorem loop_has_write (cfg : Config) (l : List String) :
    ∀ s : AnalyzeState,
      (l.foldl (analyzeStep cfg) s).has_write =
        (s.has_write || l.any (fun a => decide ((score_action cfg a).write > 0))) := by
  induction l with
  | nil => intro s; simp
  | cons a t ih =>
    intro s
    rw [List.foldl_cons, ih]
    show ((analyzeStep cfg s a).has_write || _) = _
    by_cases h : (score_action cfg a).write > 0
    · simp [analyzeStep, h]
    · simp [analyzeStep, h]

theorem analyze_actions_read (cfg : Config) (l : List String) :
    (analyze_actions cfg l).2.1.read_score =
      maxFold (fun a => (score_action cfg a).read) 0 l :=
  loop_read cfg l {}

theorem analyze_actions_write (cfg : Config) (l : List String) :
    (analyze_actions cfg l).2.1.write_score =
      maxFold (fun a => (score_action cfg a).write) 0 l :=
  loop_write cfg l {}

theorem analyze_actions_admin (cfg : Config) (l : List String) :
    (analyze_actions cfg l).2.1.admin_score =
      maxFold (fun a => (score_action cfg a).admin) 0 l :=
  loop_admin cfg l {}

/-- How `analyze_actions` actually derives its access level: the
`has_admin` / `has_write` flags (any action with a positive admin or
write score) are checked alongside the merged-score thresholds. -/
theorem analyze_actions_level (cfg : Config) (l : List String) :
    (analyze_actions cfg l).1 =
      (if (∃ a ∈ l, 0 < (score_action cfg a).admin) ∨
          5 ≤ maxFold (fun a => (score_action cfg a).admin) 0 l then
        AccessLevel.FULL_ADMIN
      else if (∃ a ∈ l, 0 < (score_action cfg a).write) ∨
          5 ≤ maxFold (fun a => (score_action cfg a).write) 0 l then
        AccessLevel.READ_WRITE
      else if 0 < maxFold (fun a => (score_action cfg a).read) 0 l then
        AccessLevel.READ_ONLY
      else AccessLevel.UNKNOWN) := by
  have h1 : (analyze_actions cfg l).1 =
      (if (l.foldl (analyzeStep cfg) {}).has_admin = true ∨
          (l.foldl (analyzeStep cfg) {}).scores.admin_score ≥ 5 then
        AccessLevel.FULL_ADMIN
      else if (l.foldl (analyzeStep cfg) {}).has_write = true ∨
          (l.foldl (analyzeStep cfg) {}).scores.write_score ≥ 5 then
        AccessLevel.READ_WRITE
      else if (l.foldl (analyzeStep cfg) {}).scores.read_score > 0 then
        AccessLevel.READ_ONLY
      else AccessLevel.UNKNOWN) := rfl
  rw [h1, loop_has_admin, loop_has_write, loop_read, loop_write, loop_admin]
  simp only [Bool.false_or, List.any_eq_true, decide_eq_true_eq, gt_iff_lt,
    ge_iff_le]

/-! ## Claims C2, C3, C4, C5, C10 -/

/-- A configuration exhibiting a merged admin and write score strictly
between 0 and 5: one special action at a tier of severity 4. -/
def cfgC2 : Config where
  scoring_rules := { risk_levels := [("low", 4)], defaults := ⟨2, 5, 0⟩ }
  special_actions := [("foo", { risk_level := some "low" })]
  weights := { service_specific := 1, pattern_based := 7/10, managed_policy := 6/5 }

/-- C2, counterexample: on the action list `["foo"]` under `cfgC2` the
merged scores are admin=4 and write=4 — both strictly between 0 and 5 —
yet `analyze_actions` classifies the list FULL_ADMIN, because any action
with a positive admin score sets the `has_admin` flag.  The claim's
threshold function (admin≥5 → full-admin; else write≥5 → read-write;
else read>0 → read-only) would give READ_ONLY here. -/
theorem C2_counterexample :
    (analyze_actions cfgC2 ["foo"]).2.1.admin_score = 4 ∧
    (analyze_actions cfgC2 ["foo"]).2.1.write_score = 4 ∧
    ((0 : Int) < 4 ∧ (4 : Int) < 5) ∧
    (analyze_actions cfgC2 ["foo"]).1 = AccessLevel.FULL_ADMIN ∧
    AccessLevel.FULL_ADMIN ≠
      (if (4 : Int) ≥ 5 then AccessLevel.FULL_ADMIN
       else if (4 : Int) ≥ 5 then AccessLevel.READ_WRITE
       else if (4 : Int) > 0 then AccessLevel.READ_ONLY
       else AccessLevel.UNKNOWN) := by
  refine ⟨?_, ?_, ?_, ?_, ?_⟩ <;> decide

/-- C2, amended: `analyze_actions` derives its access level from the
merged scores *and* the per-action flags — full-admin when some action
has a positive admin score or the merged admin score is ≥ 5; else
read-write when some action has a positive write score or the merged
write score is ≥ 5; else read-only when the merged read score is
positive; else unknown. -/
theorem C2_access_level_amended (cfg : Config) (actions : List String) :
    (analyze_actions cfg actions).1 =
      (if (∃ a ∈ actions, 0 < (score_action cfg a).admin) ∨
          5 ≤ maxFold (fun a => (score_action cfg a).admin) 0 actions then
        AccessLevel.FULL_ADMIN
      else if (∃ a ∈ actions, 0 < (score_action cfg a).write) ∨
          5 ≤ maxFold (fun a => (score_action cfg a).write) 0 actions then
        AccessLevel.READ_WRITE
      else if 0 < maxFold (fun a => (score_action cfg a).read) 0 actions then
        AccessLevel.READ_ONLY
      else AccessLevel.UNKNOWN) :=
  analyze_actions_level cfg actions

/-- C3: for every configuration whose `special_actions` table maps `"*"`
to the critical tier with positive severity `c` bounding every per-action
score (the "max severity"), any action list containing `"*"` analyses to
exactly (c, c, c) and FULL_ADMIN, and scoring `"*"` itself yields the
critical tier and the sentinel-naming justification. -/
theorem C3_wildcard_dominance (cfg : Config) (actions : List String)
    (sac : SpecialActionConfig) (c : Int)
    (h1 : dget cfg.special_actions "*" = some sac)
    (h2 : sac.risk_level.getD "critical" = "critical")
    (h3 : rlGet cfg "critical" 10 = c)
    (h4 : 0 < c)
    (h5 : ∀ a ∈ actions, (score_action cfg a).read ≤ c ∧
          (score_action cfg a).write ≤ c ∧ (score_action cfg a).admin ≤ c)
    (h6 : "*" ∈ actions) :
    (analyze_actions cfg actions).1 = AccessLevel.FULL_ADMIN ∧
    (analyze_actions cfg actions).2.1.read_score = c ∧
    (analyze_actions cfg actions).2.1.write_score = c ∧
    (analyze_actions cfg actions).2.1.admin_score = c ∧
    (score_action cfg "*").risk = "critical" ∧
    (score_action cfg "*").justification =
      "Full administrative access: Complete control over all AWS services and resources" := by
  have hstar : score_action cfg "*" =
      ⟨c, c, c, "critical",
       "Full administrative access: Complete control over all AWS services and resources"⟩ := by
    simp [score_action, h1, score_special_action, h2, h3]
  have hread : (analyze_actions cfg actions).2.1.read_score = c := by
    rw [analyze_actions_read]
    refine le_antisymm (maxFold_le _ (fun a ha => (h5 a ha).1) (le_of_lt h4)) ?_
    have := mem_le_maxFold (fun a => (score_action cfg a).read) h6 0
    rwa [hstar] at this
  have hwrite : (analyze_actions cfg actions).2.1.write_score = c := by
    rw [analyze_actions_write]
    refine le_antisymm (maxFold_le _ (fun a ha => (h5 a ha).2.1) (le_of_lt h4)) ?_
    have := mem_le_maxFold (fun a => (score_action cfg a).write) h6 0
    rwa [hstar] at this
  have hadmin : (analyze_actions cfg actions).2.1.admin_score = c := by
    rw [analyze_actions_admin]
    refine le_antisymm (maxFold_le _ (fun a ha => (h5 a ha).2.2) (le_of_lt h4)) ?_
    have := mem_le_maxFold (fun a => (score_action cfg a).admin) h6 0
    rwa [hstar] at this
  refine ⟨?_, hread, hwrite, hadmin, by rw [hstar], by rw [hstar]⟩
  rw [analyze_actions_level]
  have : ∃ a ∈ actions, 0 < (score_action cfg a).admin :=
    ⟨"*", h6, by rw [hstar]; exact h4⟩
  rw [if_pos (Or.inl this)]

/-- C3, witness: under the spec-modelled configuration, the list
`["s3:GetObject", "*"]` analyses to (10, 10, 10) and FULL_ADMIN. -/
theorem C3_wildcard_dominance_witness :
    (analyze_actions yaml_config ["s3:GetObject", "*"]).1 = AccessLevel.FULL_ADMIN ∧
    (analyze_actions yaml_config ["s3:GetObject", "*"]).2.1.read_score = 10 ∧
    (analyze_actions yaml_config ["s3:GetObject", "*"]).2.1.write_score = 10 ∧
    (analyze_actions yaml_config ["s3:GetObject", "*"]).2.1.admin_score = 10 ∧
    (score_action yaml_config "*").risk = "critical" ∧
    (score_action yaml_config "*").justification =
      "Full administrative access: Complete control over all AWS services and resources" :=
  C3_wildcard_dominance yaml_config ["s3:GetObject", "*"]
    { risk_level := some "critical" } 10 (by decide) (by decide) (by decide)
    (by decide) (by decide) (by decide)

/-- The external environment of the C4 scenario: one attached managed
policy named `AdministratorAccess` and no inline policy. -/
def envC4 : AwsEnv where
  managedPoliciesRaw := fun _ => .ok [{ Name := "AdministratorAccess" }]
  inlinePolicyRaw := fun _ => .ok none

/-- C4: analysing a permission set whose only attachment is the managed
policy `AdministratorAccess` (no inline policy) under the spec-modelled
configuration returns FULL_ADMIN with scores (10, 10, 10) and exactly the
justification "Full administrative access via AdministratorAccess
managed policy" (which in particular contains that phrase). -/
theorem C4_administrator_access (parseJson : String → Except Unit Json) :
    (analyze_permission_set yaml_config parseJson envC4 []
        "arn:aws:sso:::permissionSet/ssoins-1/ps-1").1 =
      (AccessLevel.FULL_ADMIN,
       { read_score := 10, write_score := 10, admin_score := 10,
         justification :=
           "Full administrative access via AdministratorAccess managed policy" }) := by
  rfl

/-- C5: folding in more actions never decreases a merged score — each
field of `analyze_actions (A ++ B)` dominates the corresponding field of
`analyze_actions A` and of `analyze_actions B`. -/
theorem C5_monotonic_merge (cfg : Config) (A B : List String) :
    ((analyze_actions cfg A).2.1.read_score ≤
        (analyze_actions cfg (A ++ B)).2.1.read_score ∧
      (analyze_actions cfg A).2.1.write_score ≤
        (analyze_actions cfg (A ++ B)).2.1.write_score ∧
      (analyze_actions cfg A).2.1.admin_score ≤
        (analyze_actions cfg (A ++ B)).2.1.admin_score) ∧
    ((analyze_actions cfg B).2.1.read_score ≤
        (analyze_actions cfg (A ++ B)).2.1.read_score ∧
      (analyze_actions cfg B).2.1.write_score ≤
        (analyze_actions cfg (A ++ B)).2.1.write_score ∧
      (analyze_actions cfg B).2.1.admin_score ≤
        (analyze_actions cfg (A ++ B)).2.1.admin_score) := by
  simp only [analyze_actions_read, analyze_actions_write, analyze_actions_admin,
    maxFold_append]
  refine ⟨⟨le_maxFold _ B _, le_maxFold _ B _, le_maxFold _ B _⟩,
    ⟨maxFold_mono _ B (le_maxFold _ A 0),
     maxFold_mono _ B (le_maxFold _ A 0),
     maxFold_mono _ B (le_maxFold _ A 0)⟩⟩

/-- C10: the empty action list analyses to UNKNOWN, all-zero scores with
a justification reporting an analysis of 0 actions, and an empty
high-risk list, for every configuration. -/
theorem C10_empty_action_list (cfg : Config) :
    analyze_actions cfg [] =
      (AccessLevel.UNKNOWN,
       { read_score := 0, write_score := 0, admin_score := 0,
         justification :=
           "Analysis of 0 actions. Access level: unknown. High-risk actions: 0. Detailed breakdown: " },
       ([] : List String)) := by
  have h : analyze_actions cfg [] = analyze_actions default_config [] := rfl
  rw [h]
  rfl

/-! ## Claims C6, C7, C8, C9 -/

/-- The action resolves inside the service branch of
`_score_service_action` without reaching the pattern fallback: either an
exact `actions`-table entry whose tier is one of the four known tiers, or
membership in one of the four legacy per-service lists. -/
def serviceResolves (sc : ServiceConfig) (a : String) : Bool :=
  (match dget sc.actions a with
   | some e =>
     let r := e.risk_level.getD "medium"
     decide (r = "critical") || decide (r = "high") ||
       decide (r = "medium") || decide (r = "low")
   | none => false) ||
  decide (a ∈ sc.critical_actions) || decide (a ∈ sc.high_risk_actions) ||
  decide (a ∈ sc.medium_risk_actions) || decide (a ∈ sc.read_only_actions)

theorem svcLegacy_patterns_irrelevant (cfg : Config)
    (pats : List (String × List Matcher)) (action : String)
    (sc : ServiceConfig)
    (h : action ∈ sc.critical_actions ∨ action ∈ sc.high_risk_actions ∨
         action ∈ sc.medium_risk_actions ∨ action ∈ sc.read_only_actions) :
    svcLegacy { cfg with patterns := pats } action sc =
      svcLegacy cfg action sc := by
  unfold svcLegacy
  split_ifs with h1 h2 h3 h4
  · rfl
  · rfl
  · rfl
  · rfl
  · rcases h with h | h | h | h <;> contradiction

theorem score_service_action_patterns_irrelevant (cfg : Config)
    (pats : List (String × List Matcher)) (service action : String)
    (sc : ServiceConfig) (h : serviceResolves sc action = true) :
    score_service_action { cfg with patterns := pats } service action sc =
      score_service_action cfg service action sc := by
  unfold score_service_action
  cases hdg : dget sc.actions action with
  | none =>
    simp only [serviceResolves, hdg, Bool.false_or, Bool.or_eq_true,
      decide_eq_true_eq] at h
    exact svcLegacy_patterns_irrelevant cfg pats action sc
      (by tauto)
  | some e =>
    simp only [serviceResolves, hdg, Bool.or_eq_true, decide_eq_true_eq] at h
    dsimp only
    split_ifs with h1 h2 h3 h4
    · rfl
    · rfl
    · rfl
    · rfl
    · refine svcLegacy_patterns_irrelevant cfg pats action sc ?_
      rcases h with (((((((hr | hr) | hr) | hr) | hm) | hm) | hm) | hm)
      · exact absurd hr h1
      · exact absurd hr h2
      · exact absurd hr h3
      · exact absurd hr h4
      · exact Or.inl hm
      · exact Or.inr (Or.inl hm)
      · exact Or.inr (Or.inr (Or.inl hm))
      · exact Or.inr (Or.inr (Or.inr hm))

/-- C6: when an action (that is not a special sentinel) has a colon, its
lower-cased service prefix has a configured service table, and the action
resolves inside that table (exact entry at any of the four tiers, or a
legacy per-service list), `score_action` returns the service-branch
result and is unchanged by replacing the pattern rules with anything at
all — service-table lookup strictly precedes, and here never reaches,
the pattern fallback. -/
theorem C6_service_table_precedes_patterns (cfg : Config) (action : String)
    (sc : ServiceConfig) (pats : List (String × List Matcher))
    (h1 : dget cfg.special_actions action = none)
    (h2 : charMem ':' action = true)
    (h3 : dget cfg.services (strLower (serviceOf action)) = some sc)
    (h4 : serviceResolves sc action = true) :
    score_action cfg action =
      score_service_action cfg (strLower (serviceOf action)) action sc ∧
    score_action { cfg with patterns := pats } action =
      score_action cfg action := by
  have hs : ({ cfg with patterns := pats } : Config).special_actions =
      cfg.special_actions := rfl
  have hv : ({ cfg with patterns := pats } : Config).services =
      cfg.services := rfl
  constructor
  · simp [score_action, h1, h2, h3]
  · simp [score_action, hs, hv, h1, h2, h3]
    exact score_service_action_patterns_irrelevant cfg pats _ action sc h4

/-- The service table of the C6 witness: `s3:GetObject` configured at the
medium tier. -/
def scC6 : ServiceConfig where
  actions := [("s3:GetObject",
    { risk_level := some "medium", description := some "Read object data" })]

/-- The configuration of the C6 witness: the medium service-table entry
coexists with a critical pattern rule matching every action. -/
def cfgC6 : Config where
  scoring_rules :=
    { risk_levels :=
        [("minimal", 1), ("low", 3), ("medium", 5), ("high", 8), ("critical", 10)]
      defaults := { read_score := 2, write_score := 5, admin_score := 0 } }
  services := [("s3", scC6)]
  patterns := [("critical", [fun _ => true])]
  special_actions := []
  weights := { service_specific := 1, pattern_based := 7/10, managed_policy := 6/5 }

/-- C6, witness: `s3:GetObject` — present in the service table as medium
and matched by a critical pattern — resolves via the service table (tier
"medium"), unchanged if the pattern rules are dropped. -/
theorem C6_service_table_precedes_patterns_witness :
    (score_action cfgC6 "s3:GetObject" =
        score_service_action cfgC6 (strLower (serviceOf "s3:GetObject"))
          "s3:GetObject" scC6 ∧
      score_action { cfgC6 with patterns := [] } "s3:GetObject" =
        score_action cfgC6 "s3:GetObject") ∧
    (score_action cfgC6 "s3:GetObject").risk = "medium" :=
  ⟨C6_service_table_precedes_patterns cfgC6 "s3:GetObject" scC6 []
      (by decide) (by decide) (by decide) (by decide),
    by decide⟩

/-- C7: on a cache miss, whenever any exception is raised inside the
analysis steps (the `try` body: inline-policy fetch or scoring), the
result of `analyze_permission_set` is `(UNKNOWN, PermissionScores())` —
all three scores zero and an empty justification — rather than a
propagated exception. -/
theorem C7_analysis_errors_degrade (cfg : Config)
    (parseJson : String → Except Unit Json) (env : AwsEnv)
    (cache : List (String × (AccessLevel × PermissionScores)))
    (arn : String) (e : PyErr)
    (h1 : dget cache arn = none)
    (h2 : analysis_result cfg parseJson env arn = .error e) :
    (analyze_permission_set cfg parseJson env cache arn).1 =
      (AccessLevel.UNKNOWN,
       { read_score := 0, write_score := 0, admin_score := 0,
         justification := "" }) := by
  simp only [analyze_permission_set, h1, h2]

/-- The external environment of the C7 witness: the inline-policy fetch
raises an exception other than `ResourceNotFoundException`. -/
def envC7 : AwsEnv where
  managedPoliciesRaw := fun _ => .ok []
  inlinePolicyRaw := fun _ => .error (.otherErr "ConnectionError")

/-- C7, witness: a failing inline-policy fetch degrades the analysis to
`(UNKNOWN, PermissionScores())`. -/
theorem C7_analysis_errors_degrade_witness :
    (analyze_permission_set yaml_config (fun _ => .error ()) envC7 []
        "arn:aws:sso:::permissionSet/ssoins-1/ps-2").1 =
      (AccessLevel.UNKNOWN,
       { read_score := 0, write_score := 0, admin_score := 0,
         justification := "" }) :=
  C7_analysis_errors_degrade yaml_config (fun _ => .error ()) envC7 []
    "arn:aws:sso:::permissionSet/ssoins-1/ps-2" (.otherErr "ConnectionError")
    (by rfl) (by rfl)

/-- C8: a missing configuration file or an unparsable one never fails the
caller — `_load_config` returns the built-in minimal default, whose
severity scale is non-empty, whose service table is empty, whose
managed-policy buckets and pattern lists are all empty, and whose default
triple is (read=2, write=5, admin=0). -/
theorem C8_config_load_fallback (readFile : String → Except FileErr String)
    (parseYaml : String → Except Unit Config) (path : String)
    (h : readFile path = .error .fileNotFound ∨
         ∃ c, readFile path = .ok c ∧ parseYaml c = .error ()) :
    load_config readFile parseYaml path = .ok default_config ∧
    default_config.scoring_rules.risk_levels ≠ [] ∧
    default_config.services = [] ∧
    (∀ kv ∈ default_config.managed_policies,
      kv.2 = ManagedPolicyValue.legacy []) ∧
    (∀ kv ∈ default_config.patterns, kv.2 = []) ∧
    default_config.scoring_rules.defaults =
      { read_score := 2, write_score := 5, admin_score := 0 } := by
  refine ⟨?_, by decide, rfl, by decide, ?_, rfl⟩
  · rcases h with h | ⟨c, hc, hp⟩
    · simp only [load_config, h]
    · simp only [load_config, hc, hp]
  · intro kv hkv
    simp only [default_config, List.mem_cons, List.not_mem_nil, or_false] at hkv
    rcases hkv with rfl | rfl | rfl | rfl <;> rfl

/-- C8, witness: a missing file at a concrete path yields exactly the
default configuration. -/
theorem C8_config_load_fallback_witness :
    load_config (fun _ => .error .fileNotFound) (fun _ => .error ())
        "config/permission_scoring_minimal.yaml" = .ok default_config ∧
    default_config.scoring_rules.risk_levels ≠ [] ∧
    default_config.services = [] ∧
    (∀ kv ∈ default_config.managed_policies,
      kv.2 = ManagedPolicyValue.legacy []) ∧
    (∀ kv ∈ default_config.patterns, kv.2 = []) ∧
    default_config.scoring_rules.defaults =
      { read_score := 2, write_score := 5, admin_score := 0 } :=
  C8_config_load_fallback (fun _ => .error .fileNotFound) (fun _ => .error ())
    "config/permission_scoring_minimal.yaml" (Or.inl rfl)

theorem mpLegacyLoop_skip (cfg : Config) (n : String)
    (pre rest : List (String × ManagedPolicyValue))
    (h : ∀ kv ∈ pre, legacyHit n kv.2 = false) :
    mpLegacyLoop cfg n (pre ++ rest) = mpLegacyLoop cfg n rest := by
  induction pre with
  | nil => rfl
  | cons kv t ih =>
    cases kv with
    | mk k' v' =>
      have hkv : legacyHit n v' = false := h (k', v') (List.mem_cons_self _ t)
      simp only [List.cons_append, mpLegacyLoop, hkv, Bool.false_eq_true,
        if_false]
      exact ih (fun kv hkvmem => h kv (List.mem_cons_of_mem _ hkvmem))

/-- C9 (implicit): the legacy-tier fallback of `score_managed_policy`
matches by substring containment, not exact membership — with no exact
entry for the queried name, the first bucket (in dict order) being a
legacy tier list containing a configured name that occurs as a substring
of the queried policy name yields that bucket's tier→shape triple. -/
theorem C9_legacy_substring_fallback (cfg : Config) (policy_name : String)
    (pre post : List (String × ManagedPolicyValue)) (k : String)
    (L : List String) (p : String)
    (h0 : dget cfg.managed_policies policy_name = none)
    (h1 : cfg.managed_policies = pre ++ (k, ManagedPolicyValue.legacy L) :: post)
    (h2 : ∀ kv ∈ pre, legacyHit policy_name kv.2 = false)
    (h3 : p ∈ L) (h4 : subMem p policy_name = true)
    (h5 : k = "critical" ∨ k = "high" ∨ k = "medium" ∨ k = "low") :
    score_managed_policy cfg policy_name =
      .ok (let score := rlGet cfg k 5
           if k = "critical" then (score, score, score)
           else if k = "high" then (score, score, Int.fdiv score 2)
           else if k = "medium" then (score, score, 0)
           else (score, 0, 0)) := by
  have hhit : legacyHit policy_name (ManagedPolicyValue.legacy L) = true := by
    simp only [legacyHit, List.any_eq_true]
    exact ⟨p, h3, h4⟩
  have hloop : mpLegacyLoop cfg policy_name cfg.managed_policies =
      some (let score := rlGet cfg k 5
            if k = "critical" then (score, score, score)
            else if k = "high" then (score, score, Int.fdiv score 2)
            else if k = "medium" then (score, score, 0)
            else (score, 0, 0)) := by
    rw [h1, mpLegacyLoop_skip cfg policy_name pre _ h2]
    rcases h5 with rfl | rfl | rfl | rfl <;>
      simp only [mpLegacyLoop, hhit, if_true] <;> rfl
  simp only [score_managed_policy, h0, hloop]

/-- The configuration of the C9 witness: no exact entry for the queried
name, one legacy low bucket containing `ReadOnlyAccess`. -/
def cfgC9 : Config where
  scoring_rules :=
    { risk_levels := [("low", 3)]
      defaults := { read_score := 2, write_score := 5, admin_score := 0 } }
  managed_policies := [("low", ManagedPolicyValue.legacy ["ReadOnlyAccess"])]
  weights := { service_specific := 1, pattern_based := 7/10, managed_policy := 6/5 }

/-- C9, witness: `CustomReadOnlyAccessPlus` — which merely *contains* the
configured name `ReadOnlyAccess` and is not equal to it — is scored as
the low bucket's read-only shape (3, 0, 0) instead of the defaults
(2, 5, 0). -/
theorem C9_legacy_substring_fallback_witness :
    score_managed_policy cfgC9 "CustomReadOnlyAccessPlus" = .ok (3, 0, 0) ∧
    "CustomReadOnlyAccessPlus" ≠ "ReadOnlyAccess" ∧
    (3, 0, 0) ≠
      (cfgC9.scoring_rules.defaults.read_score,
       cfgC9.scoring_rules.defaults.write_score,
       cfgC9.scoring_rules.defaults.admin_score) :=
  ⟨C9_legacy_substring_fallback cfgC9 "CustomReadOnlyAccessPlus" [] [] "low"
      ["ReadOnlyAccess"] "ReadOnlyAccess" (by decide) rfl (by decide)
      (by decide) (by decide) (by decide),
    by decide, by decide⟩

end AwsSso



